import Mathlib

/-!
Verification of the jrserial native serial-port layer (src/native/src).

The Rust sources are shallowly embedded below:
  - `lib.rs`: timeout normalization, JNI boundary operations with their
    error-context recording behaviour, parameter decoding for `open` /
    `openWithRs485Config`, and port type classification;
  - `platform_linux.rs`: the Linux `PortWrapper` with kernel RS-485
    support (ioctl encoding, configure/delay operations, write path);
  - `platform_other.rs`: the non-Linux `PortWrapper` (manual toggling only).

Machine integers are modelled as `Nat` with explicit `% 2 ^ w` where
overflow matters; fallible transport calls are modelled as `Except`
results supplied by an environment record, and the write path also
returns the list of transport events it performed, in order.
-/

namespace JrSerial

/-- RS-485 control mode (`Rs485ControlMode` in lib.rs): 0 = None (disabled),
1 = Auto, 2 = Manual. -/
inductive Rs485ControlMode
  | None
  | Auto
  | Manual
deriving DecidableEq, Repr

/-- Which pin is used for manual RS-485 control (`Rs485ControlPin` in lib.rs). -/
inductive Rs485ControlPin
  | RTS
  | DTR
deriving DecidableEq, Repr

/-- Data bits enumeration (`serialport::DataBits`). -/
inductive DataBits
  | Five
  | Six
  | Seven
  | Eight
deriving DecidableEq, Repr

/-- Stop bits enumeration (`serialport::StopBits`). -/
inductive StopBits
  | One
  | Two
deriving DecidableEq, Repr

/-- Parity enumeration (`serialport::Parity`). -/
inductive Parity
  | None
  | Odd
  | Even
deriving DecidableEq, Repr

/-- Flow control enumeration (`serialport::FlowControl`). -/
inductive FlowControl
  | None
  | Software
  | Hardware
deriving DecidableEq, Repr

/-! ## Timeout normalization (lib.rs, `normalize_timeout_ms`) -/

/-- Modulus of the Rust `u64` arithmetic used in `normalize_timeout_ms`. -/
def u64Mod : Nat := 2 ^ 64

/-- Model of `normalize_timeout_ms` on Linux (`cfg(target_os = "linux")` branch):
0 is preserved, otherwise round up to the nearest 100 ms via
`((timeout_ms + 99) / 100) * 100`.  The addition is `u64` arithmetic,
hence the explicit wrap. -/
def normalize_timeout_ms_linux (timeout_ms : Nat) : Nat :=
  if timeout_ms = 0 then 0
  else ((timeout_ms + 99) % u64Mod) / 100 * 100

/-- Model of `normalize_timeout_ms` on non-Linux platforms: the value passes
through unchanged. -/
def normalize_timeout_ms_other (timeout_ms : Nat) : Nat :=
  timeout_ms

/-! ## Parameter decoding in `open` / `openWithRs485Config` (lib.rs) -/

/-- The `data_bits` match in `Java_..._open` and `Java_..._openWithRs485Config`:
any value outside 5..8 falls to `DataBits::Eight`. -/
def decode_data_bits (v : Int) : DataBits :=
  if v = 5 then .Five
  else if v = 6 then .Six
  else if v = 7 then .Seven
  else if v = 8 then .Eight
  else .Eight

/-- The `stop_bits` match: any value other than 1 or 2 falls to `StopBits::One`. -/
def decode_stop_bits (v : Int) : StopBits :=
  if v = 1 then .One
  else if v = 2 then .Two
  else .One

/-- The `parity` match: any value other than 0, 1, 2 falls to `Parity::None`. -/
def decode_parity (v : Int) : Parity :=
  if v = 0 then .None
  else if v = 1 then .Odd
  else if v = 2 then .Even
  else .None

/-- The `flow_control` match in `Java_..._openWithRs485Config`: any value
other than 0, 1, 2 falls to `FlowControl::None`. -/
def decode_flow_control (v : Int) : FlowControl :=
  if v = 0 then .None
  else if v = 1 then .Software
  else if v = 2 then .Hardware
  else .None

/-- The `rs485_mode` match: any value other than 0, 1, 2 falls to
`Rs485ControlMode::None`. -/
def decode_rs485_mode (v : Int) : Rs485ControlMode :=
  if v = 0 then .None
  else if v = 1 then .Auto
  else if v = 2 then .Manual
  else .None

/-- The `rs485_pin` match: any value other than 0 or 1 falls to
`Rs485ControlPin::RTS`. -/
def decode_rs485_pin (v : Int) : Rs485ControlPin :=
  if v = 0 then .RTS
  else if v = 1 then .DTR
  else .RTS

/-- The configuration assembled by the two open entry points before the
port builder is invoked. -/
structure OpenConfig where
  data_bits : DataBits
  stop_bits : StopBits
  parity : Parity
  flow_control : FlowControl
  control_mode : Rs485ControlMode
  control_pin : Rs485ControlPin
deriving DecidableEq, Repr

/-- Parameter decoding performed by `Java_..._open` (flow control is
hard-coded to `FlowControl::None` there). -/
def open_decode (data_bits stop_bits parity rs485_mode rs485_pin : Int) :
    OpenConfig :=
  { data_bits := decode_data_bits data_bits
    stop_bits := decode_stop_bits stop_bits
    parity := decode_parity parity
    flow_control := .None
    control_mode := decode_rs485_mode rs485_mode
    control_pin := decode_rs485_pin rs485_pin }

/-- Parameter decoding performed by `Java_..._openWithRs485Config`. -/
def openWithRs485Config_decode
    (data_bits stop_bits parity flow_control rs485_mode rs485_pin : Int) :
    OpenConfig :=
  { data_bits := decode_data_bits data_bits
    stop_bits := decode_stop_bits stop_bits
    parity := decode_parity parity
    flow_control := decode_flow_control flow_control
    control_mode := decode_rs485_mode rs485_mode
    control_pin := decode_rs485_pin rs485_pin }

/-! ## Linux `PortWrapper` (platform_linux.rs) -/

/-- RS-485 flag constants from linux/serial.h (platform_linux.rs). -/
def SER_RS485_ENABLED : Nat := 1 <<< 0

/-- Model of `SER_RS485_RTS_ON_SEND` flag. -/
def SER_RS485_RTS_ON_SEND : Nat := 1 <<< 1

/-- Model of `SER_RS485_RTS_AFTER_SEND` flag. -/
def SER_RS485_RTS_AFTER_SEND : Nat := 1 <<< 2

/-- Model of `SER_RS485_RX_DURING_TX` flag. -/
def SER_RS485_RX_DURING_TX : Nat := 1 <<< 4

/-- Model of `SER_RS485_TERMINATE_BUS` flag. -/
def SER_RS485_TERMINATE_BUS : Nat := 1 <<< 5

/-- The Linux kernel `serial_rs485` descriptor (platform_linux.rs,
`SerialRs485`), padding omitted as it is always zero. -/
structure SerialRs485 where
  flags : Nat
  delay_rts_before_send : Nat
  delay_rts_after_send : Nat
deriving DecidableEq, Repr

/-- The mutable state of the Linux `PortWrapper` (platform_linux.rs),
with the transport handle itself abstracted away. -/
structure LinuxPortState where
  control_mode : Rs485ControlMode
  control_pin : Rs485ControlPin
  kernel_rs485_active : Bool
  rts_active_high : Bool
  rx_during_tx : Bool
  termination_enabled : Bool
  delay_before_send_micros : Nat
  delay_after_send_micros : Nat
deriving DecidableEq, Repr

/-- Model of `PortWrapper::new` on Linux: mode None, pin RTS, kernel inactive,
polarity active-high, no extras, zero delays. -/
def PortWrapper_new : LinuxPortState :=
  { control_mode := .None
    control_pin := .RTS
    kernel_rs485_active := false
    rts_active_high := true
    rx_during_tx := false
    termination_enabled := false
    delay_before_send_micros := 0
    delay_after_send_micros := 0 }

/-- Outcome of the two RS-485 ioctls as seen by `try_enable_kernel_rs485`:
whether the `TIOCSRS485` set call returns 0, and the descriptor produced by
the `TIOCGRS485` readback (`none` when that ioctl fails). -/
structure IoctlEnv where
  setOk : Bool
  readback : Option SerialRs485
deriving DecidableEq, Repr

/-- The flags word built at the top of `try_enable_kernel_rs485`
(platform_linux.rs lines 83-99): enabled always; RTS_ON_SEND when
`rts_active_high`, else RTS_AFTER_SEND; RX_DURING_TX and TERMINATE_BUS
per configuration. -/
def build_rs485_flags (s : LinuxPortState) : Nat :=
  let flags := SER_RS485_ENABLED
  let flags := if s.rts_active_high then flags ||| SER_RS485_RTS_ON_SEND
               else flags ||| SER_RS485_RTS_AFTER_SEND
  let flags := if s.rx_during_tx then flags ||| SER_RS485_RX_DURING_TX else flags
  if s.termination_enabled then flags ||| SER_RS485_TERMINATE_BUS else flags

/-- The `SerialRs485` descriptor passed to `TIOCSRS485` by
`try_enable_kernel_rs485`: built flags plus the stored microsecond delays
converted to milliseconds by integer division (truncation). -/
def encode_rs485_config (s : LinuxPortState) : SerialRs485 :=
  { flags := build_rs485_flags s
    delay_rts_before_send := s.delay_before_send_micros / 1000
    delay_rts_after_send := s.delay_after_send_micros / 1000 }

/-- Model of `PortWrapper::try_enable_kernel_rs485`: issue the set ioctl; when it
succeeds, read the configuration back and report success only when the
readback succeeds and has the `SER_RS485_ENABLED` bit set. -/
def try_enable_kernel_rs485 (env : IoctlEnv) : Bool :=
  if env.setOk then
    match env.readback with
    | some verify => (verify.flags &&& SER_RS485_ENABLED) != 0
    | none => false
  else false

/-- Model of `PortWrapper::configure_rs485` (platform_linux.rs lines 141-176).
Returns the new state and whether the disable ioctl was issued
(step 1: a previously active kernel mode is disabled best-effort and the
flag cleared before the mode is re-evaluated).  The Rust function always
returns `Ok(())`. -/
def configure_rs485 (s : LinuxPortState) (mode : Rs485ControlMode)
    (pin : Rs485ControlPin) (env : IoctlEnv) : LinuxPortState × Bool :=
  let disableIssued := s.kernel_rs485_active
  let s1 := if s.kernel_rs485_active then { s with kernel_rs485_active := false } else s
  let s2 := { s1 with control_mode := mode, control_pin := pin }
  match mode with
  | .None => (s2, disableIssued)
  | .Auto =>
    if pin = .RTS then
      if try_enable_kernel_rs485 env then
        ({ s2 with kernel_rs485_active := true }, disableIssued)
      else (s2, disableIssued)
    else (s2, disableIssued)
  | .Manual => (s2, disableIssued)

/-- Model of `PortWrapper::configure_rs485_extended` on Linux: store the five
timing/polarity attributes, then run `configure_rs485`. -/
def configure_rs485_extended (s : LinuxPortState) (mode : Rs485ControlMode)
    (pin : Rs485ControlPin) (rts_active_high rx_during_tx termination_enabled : Bool)
    (delay_before_micros delay_after_micros : Nat) (env : IoctlEnv) :
    LinuxPortState × Bool :=
  let s' := { s with
    rts_active_high := rts_active_high
    rx_during_tx := rx_during_tx
    termination_enabled := termination_enabled
    delay_before_send_micros := delay_before_micros
    delay_after_send_micros := delay_after_micros }
  configure_rs485 s' mode pin env

/-- Model of `PortWrapper::set_rs485_delays`: store the two microsecond delays;
when kernel mode is already active, re-issue the enable call (result and
`kernel_rs485_active` flag untouched).  The second component reports
whether the enable call was re-issued. -/
def set_rs485_delays (s : LinuxPortState)
    (before_send_micros after_send_micros : Nat) : LinuxPortState × Bool :=
  let s' := { s with
    delay_before_send_micros := before_send_micros
    delay_after_send_micros := after_send_micros }
  (s', s'.kernel_rs485_active)

/-- One mutating operation on the Linux `PortWrapper` after construction,
together with the ioctl outcomes observed during it. -/
inductive ControllerOp
  | cfg (mode : Rs485ControlMode) (pin : Rs485ControlPin) (env : IoctlEnv)
  | cfgExt (mode : Rs485ControlMode) (pin : Rs485ControlPin)
      (rts_active_high rx_during_tx termination_enabled : Bool)
      (delay_before_micros delay_after_micros : Nat) (env : IoctlEnv)
  | setDelays (before_send_micros after_send_micros : Nat)

/-- State transition of the Linux `PortWrapper` under one operation. -/
def runOp (s : LinuxPortState) (op : ControllerOp) : LinuxPortState :=
  match op with
  | .cfg mode pin env => (configure_rs485 s mode pin env).1
  | .cfgExt mode pin r x t b a env =>
      (configure_rs485_extended s mode pin r x t b a env).1
  | .setDelays b a => (set_rs485_delays s b a).1

/-- The kernel-capability invariant: kernel delegation is active only
while the mode is Automatic and the pin is RTS. -/
def kernelInv (s : LinuxPortState) : Prop :=
  s.kernel_rs485_active = true → s.control_mode = .Auto ∧ s.control_pin = .RTS

/-! ## Write path (platform_linux.rs / platform_other.rs, `write_rs485`) -/

/-- A transport action performed by `write_rs485`, in program order:
setting a control pin to a level (`write_request_to_send` /
`write_data_terminal_ready`), the raw write, or the flush. -/
inductive PortEvent
  | setPin (pin : Rs485ControlPin) (level : Bool)
  | rawWrite
  | flush
deriving DecidableEq, Repr

/-- Outcomes the transport hands back during one `write_rs485` call:
the result of setting each pin to each level, the raw write result
(byte count or I/O error code), and the flush result. -/
structure PortEnv where
  setPinResult : Rs485ControlPin → Bool → Except Nat Unit
  writeResult : Except Nat Nat
  flushResult : Except Nat Unit

/-- The mutable state of the non-Linux `PortWrapper` (platform_other.rs):
no kernel capability, but the polarity is stored. -/
structure OtherPortState where
  control_mode : Rs485ControlMode
  control_pin : Rs485ControlPin
  rts_active_high : Bool
deriving DecidableEq, Repr

/-- Model of `PortWrapper::new` on non-Linux platforms. -/
def OtherPortWrapper_new : OtherPortState :=
  { control_mode := .None
    control_pin := .RTS
    rts_active_high := true }

/-- The manual-toggle sequence shared by both platform variants: set the
pin to `transmit_level` (propagating its error immediately), perform the
raw write, flush with the flush error discarded (`let _ = ...` in the
source), then set the pin to `receive_level`, a failure there being
propagated by `?` in place of the write result. -/
def manual_toggle_write (pin : Rs485ControlPin)
    (transmit_level receive_level : Bool) (env : PortEnv) :
    Except Nat Nat × List PortEvent :=
  match env.setPinResult pin transmit_level with
  | .error e => (.error e, [.setPin pin transmit_level])
  | .ok _ =>
    match env.setPinResult pin receive_level with
    | .error e =>
      (.error e,
       [.setPin pin transmit_level, .rawWrite, .flush, .setPin pin receive_level])
    | .ok _ =>
      (env.writeResult,
       [.setPin pin transmit_level, .rawWrite, .flush, .setPin pin receive_level])

/-- Model of `PortWrapper::write_rs485` on Linux (platform_linux.rs lines 216-252).
Returns the write result and the ordered list of transport events.
In the manual arm (`Auto` without kernel mode, or `Manual`) the pin is
driven to literal `true` before the write and literal `false` after it. -/
def write_rs485_linux (s : LinuxPortState) (env : PortEnv) :
    Except Nat Nat × List PortEvent :=
  match s.control_mode with
  | .None => (env.writeResult, [.rawWrite])
  | .Auto =>
    if s.kernel_rs485_active then
      (env.writeResult, [.rawWrite, .flush])
    else
      manual_toggle_write s.control_pin true false env
  | .Manual =>
    manual_toggle_write s.control_pin true false env

/-- Model of `PortWrapper::write_rs485` on non-Linux platforms (platform_other.rs
lines 65-93).  When a control mode is set, the pin is driven to the
polarity's transmit level (`rts_active_high`) before the write and to the
opposite receive level (`!rts_active_high`) after it; otherwise the write
passes straight through. -/
def write_rs485_other (s : OtherPortState) (env : PortEnv) :
    Except Nat Nat × List PortEvent :=
  if s.control_mode ≠ .None then
    manual_toggle_write s.control_pin s.rts_active_high (!s.rts_active_high) env
  else
    (env.writeResult, [.rawWrite])

/-- A `PortEnv` in which every transport call succeeds (writes accept
`n` bytes). -/
def allOkEnv (n : Nat) : PortEnv :=
  { setPinResult := fun _ _ => .ok ()
    writeResult := .ok n
    flushResult := .ok () }

/-! ## JNI boundary operations (lib.rs)

Each model returns the boundary return value together with a flag telling
whether an error context was recorded (`set_error!`) during the call.
The outcomes of the underlying transport calls are supplied as arguments. -/

/-- Model of `Java_..._open`: invalid port name or a failed transport open return 0
after recording an error; `configure_rs485` itself always returns `Ok`,
so a successful open returns a nonzero handle (abstracted as 1) with no
error recorded. -/
def jni_open (portNameOk openOk : Bool) : Int × Bool :=
  if !portNameOk then (0, true)
  else if !openOk then (0, true)
  else (1, false)

/-- Model of `Java_..._openWithRs485Config`: like `jni_open`, but after a
successful transport open, when `dtr_on_open` is false the DTR line is
cleared and a failure of that call returns 0 with an error recorded. -/
def jni_openWithRs485Config (portNameOk openOk dtr_on_open dtrSetOk : Bool) :
    Int × Bool :=
  if !portNameOk then (0, true)
  else if !openOk then (0, true)
  else if !dtr_on_open && !dtrSetOk then (0, true)
  else (1, false)

/-- Model of `Java_..._write`: null handle, a failed buffer copy, or a failed
`write_rs485` return -1 with an error recorded; otherwise the byte count. -/
def jni_write (handleNull : Bool) (bufReadOk : Bool)
    (writeResult : Except Nat Nat) : Int × Bool :=
  if handleNull then (-1, true)
  else if !bufReadOk then (-1, true)
  else
    match writeResult with
    | .ok n => ((n : Int), false)
    | .error _ => (-1, true)

/-- Model of `Java_..._read`: null handle, a failed transport read, or a failed
buffer write-back (attempted only when bytes were read) return -1 with an
error recorded; otherwise the byte count. -/
def jni_read (handleNull : Bool) (readResult : Except Nat Nat)
    (bufWriteOk : Bool) : Int × Bool :=
  if handleNull then (-1, true)
  else
    match readResult with
    | .error _ => (-1, true)
    | .ok n =>
      if n > 0 && !bufWriteOk then (-1, true)
      else ((n : Int), false)

/-- Model of `Java_..._flush`: null handle or a failed flush return 0 with an error
recorded; success returns 1. -/
def jni_flush (handleNull : Bool) (flushOk : Bool) : Int × Bool :=
  if handleNull then (0, true)
  else if flushOk then (1, false)
  else (0, true)

/-- Model of `Java_..._clearInput`: same 0/1 convention as flush. -/
def jni_clearInput (handleNull : Bool) (clearOk : Bool) : Int × Bool :=
  if handleNull then (0, true)
  else if clearOk then (1, false)
  else (0, true)

/-- Model of `Java_..._clearOutput`: same 0/1 convention as flush. -/
def jni_clearOutput (handleNull : Bool) (clearOk : Bool) : Int × Bool :=
  if handleNull then (0, true)
  else if clearOk then (1, false)
  else (0, true)

/-- Model of `Java_..._clearAll`: same 0/1 convention as flush. -/
def jni_clearAll (handleNull : Bool) (clearOk : Bool) : Int × Bool :=
  if handleNull then (0, true)
  else if clearOk then (1, false)
  else (0, true)

/-- Model of `Java_..._setTimeout`: same 0/1 convention as flush. -/
def jni_setTimeout (handleNull : Bool) (setOk : Bool) : Int × Bool :=
  if handleNull then (0, true)
  else if setOk then (1, false)
  else (0, true)

/-- Model of `Java_..._setRTS`: same 0/1 convention as flush. -/
def jni_setRTS (handleNull : Bool) (setOk : Bool) : Int × Bool :=
  if handleNull then (0, true)
  else if setOk then (1, false)
  else (0, true)

/-- Model of `Java_..._setDTR`: same 0/1 convention as flush. -/
def jni_setDTR (handleNull : Bool) (setOk : Bool) : Int × Bool :=
  if handleNull then (0, true)
  else if setOk then (1, false)
  else (0, true)

/-- Model of `Java_..._setRs485Config` (lib.rs lines 845-891): a null handle
returns 0 with NO error recorded; otherwise `configure_rs485_extended`
runs, which always returns `Ok` on both platforms, so the call returns 1
and the error arm is dead. -/
def jni_setRs485Config (handleNull : Bool) : Int × Bool :=
  if handleNull then (0, false)
  else (1, false)

/-- Model of `Java_..._setRs485Delays` on Linux (lib.rs lines 676-700): a null
handle returns 0 with NO error recorded; otherwise the delays are stored
via `PortWrapper::set_rs485_delays` and 1 is returned.  The last component
is the updated wrapper state paired with the re-issue flag. -/
def jni_setRs485Delays_linux (handleNull : Bool) (s : LinuxPortState)
    (before_send_micros after_send_micros : Nat) :
    Int × Bool × LinuxPortState × Bool :=
  if handleNull then (0, false, s, false)
  else
    let r := set_rs485_delays s before_send_micros after_send_micros
    (1, false, r.1, r.2)

/-- Model of `Java_..._setRs485Delays` on non-Linux platforms: a null handle
returns 0, and a valid handle also returns 0 (`// RS-485 delays only
available on Linux with kernel mode`); no error is ever recorded. -/
def jni_setRs485Delays_other (handleNull : Bool) : Int × Bool :=
  if handleNull then (0, false)
  else (0, false)

/-! ## Port type classification (lib.rs, `get_port_type_info` / `listPorts`) -/

/-- Result record of `get_port_type_info` (lib.rs, `PortTypeInfo`). -/
structure PortTypeInfo where
  is_symlink : Bool
  is_pseudo_terminal : Bool
  is_bluetooth : Bool
deriving DecidableEq, Repr

/-- The filesystem facts `get_port_type_info` consults for a given path:
the symlink bit of `fs::symlink_metadata` (`none` when the metadata call
fails) and the target returned by `fs::read_link` (`none` when that call
fails). -/
structure FsMeta where
  symlinkMeta : Option Bool
  linkTarget : Option (List Char)

/-- Rust `str::contains` (substring search) over character lists. -/
def str_contains (hay needle : List Char) : Bool :=
  match hay with
  | [] => needle.isEmpty
  | _ :: t => needle.isPrefixOf hay || str_contains t needle

/-- The relevant subset of `serialport::SerialPortType` as used by
`listPorts`. -/
inductive SerialPortType
  | UsbPort
  | PciPort
  | BluetoothPort
  | Unknown
deriving DecidableEq, Repr

/-- Model of `get_port_type_info` on Unix (lib.rs lines 397-438): symlink bit with
failure degrading to false; pseudo-terminal when the path or its resolved
target contains a PTY fragment; Bluetooth when the lowercased path
contains "bluetooth" or the path starts with "/dev/rfcomm". -/
def get_port_type_info (meta : FsMeta) (path : List Char) : PortTypeInfo :=
  let is_symlink := meta.symlinkMeta.getD false
  let resolved_path := if is_symlink then meta.linkTarget.getD [] else path
  let is_pseudo_terminal :=
    str_contains resolved_path ("/dev/pts/".toList)
    || str_contains resolved_path ("/dev/pt".toList)
    || str_contains path ("/dev/pts/".toList)
    || str_contains path ("/dev/pt".toList)
  let path_lower := path.map Char.toLower
  let is_bluetooth :=
    str_contains path_lower ("bluetooth".toList)
    || ("/dev/rfcomm".toList).isPrefixOf path
  { is_symlink := is_symlink
    is_pseudo_terminal := is_pseudo_terminal
    is_bluetooth := is_bluetooth }

/-- The Bluetooth flag emitted per port by `listPorts` (lib.rs lines
470-486): the transport's own classification OR-ed with the pattern-based
detection of `get_port_type_info`. -/
def listPorts_is_bluetooth (port_type : SerialPortType) (meta : FsMeta)
    (path : List Char) : Bool :=
  (port_type = SerialPortType.BluetoothPort : Bool)
  || (get_port_type_info meta path).is_bluetooth

/-! ## Helper lemmas -/

/-- A string that starts with `needle` contains `needle`. -/
theorem str_contains_of_isPrefixOf {hay needle : List Char}
    (h : needle.isPrefixOf hay = true) : str_contains hay needle = true := by
  cases hay with
  | nil =>
    cases needle with
    | nil => rfl
    | cons c t => simp [List.isPrefixOf] at h
  | cons c t => simp [str_contains, h]

/-- The function `str_contains` finds the needle wherever it occurs. -/
theorem str_contains_append (pre needle post : List Char) :
    str_contains (pre ++ (needle ++ post)) needle = true := by
  induction pre with
  | nil =>
    rw [List.nil_append]
    exact str_contains_of_isPrefixOf
      ( List.isPrefixOf_iff_prefix.mpr (List.prefix_append needle post))
  | cons c t ih => simp [str_contains, ih]

/-! ## Claim theorems -/

/-- C4: on the coarse-granularity (Linux) platform the normalized timeout
of a nonzero request `t` is a multiple of 100, at least `t`, and no larger
than any other multiple of 100 that is at least `t`; a request of exactly
0 stays 0; on other platforms the value passes through unchanged.  The
bound `t + 99 < 2 ^ 64` keeps the `u64` addition from wrapping. -/
theorem c4_timeout_normalization :
    (∀ t : Nat, t + 99 < 2 ^ 64 → t ≠ 0 →
      100 ∣ normalize_timeout_ms_linux t ∧
      t ≤ normalize_timeout_ms_linux t ∧
      (∀ m : Nat, 100 ∣ m → t ≤ m → normalize_timeout_ms_linux t ≤ m)) ∧
    normalize_timeout_ms_linux 0 = 0 ∧
    (∀ t : Nat, normalize_timeout_ms_other t = t) := by
  refine ⟨?_, rfl, fun t => rfl⟩
  intro t hlt ht0
  unfold normalize_timeout_ms_linux u64Mod
  rw [if_neg ht0, Nat.mod_eq_of_lt hlt]
  refine ⟨dvd_mul_left 100 _, by omega, ?_⟩
  intro m hm hle
  obtain ⟨k, rfl⟩ := hm
  omega

/-- Witness for C4 at the concrete request 250 ms, normalized to 300 ms. -/
theorem c4_timeout_normalization_witness :
    100 ∣ normalize_timeout_ms_linux 250 ∧
    250 ≤ normalize_timeout_ms_linux 250 ∧
    normalize_timeout_ms_linux 250 ≤ 300 :=
  ⟨(c4_timeout_normalization.1 250 (by decide) (by decide)).1,
   (c4_timeout_normalization.1 250 (by decide) (by decide)).2.1,
   (c4_timeout_normalization.1 250 (by decide) (by decide)).2.2 300 (by decide) (by decide)⟩

/-- C10: both open entry points silently coerce out-of-range small-integer
parameters to defaults instead of rejecting them: data bits to Eight,
stop bits to One, parity to None, flow control to None, RS-485 mode to
None (disabled), and RS-485 pin to RTS. -/
theorem c10_open_parameter_coercion
    (db sb pa fc m p : Int)
    (hdb : db ≠ 5 ∧ db ≠ 6 ∧ db ≠ 7 ∧ db ≠ 8)
    (hsb : sb ≠ 1 ∧ sb ≠ 2)
    (hpa : pa ≠ 0 ∧ pa ≠ 1 ∧ pa ≠ 2)
    (hfc : fc ≠ 0 ∧ fc ≠ 1 ∧ fc ≠ 2)
    (hm : m ≠ 0 ∧ m ≠ 1 ∧ m ≠ 2)
    (hp : p ≠ 0 ∧ p ≠ 1) :
    open_decode db sb pa m p =
      { data_bits := .Eight, stop_bits := .One, parity := .None,
        flow_control := .None, control_mode := .None, control_pin := .RTS } ∧
    openWithRs485Config_decode db sb pa fc m p =
      { data_bits := .Eight, stop_bits := .One, parity := .None,
        flow_control := .None, control_mode := .None, control_pin := .RTS } := by
  obtain ⟨h1, h2, h3, h4⟩ := hdb
  obtain ⟨h5, h6⟩ := hsb
  obtain ⟨h7, h8, h9⟩ := hpa
  obtain ⟨h10, h11, h12⟩ := hfc
  obtain ⟨h13, h14, h15⟩ := hm
  obtain ⟨h16, h17⟩ := hp
  constructor <;>
    simp [open_decode, openWithRs485Config_decode, decode_data_bits,
      decode_stop_bits, decode_parity, decode_flow_control, decode_rs485_mode,
      decode_rs485_pin, h1, h2, h3, h4, h5, h6, h7, h8, h9, h10, h11, h12,
      h13, h14, h15, h16, h17]

/-- Witness for C10 at concrete out-of-range values 9, 3, 7, 9, 3, 5. -/
theorem c10_open_parameter_coercion_witness :
    open_decode 9 3 7 3 5 =
      { data_bits := .Eight, stop_bits := .One, parity := .None,
        flow_control := .None, control_mode := .None, control_pin := .RTS } ∧
    openWithRs485Config_decode 9 3 7 9 3 5 =
      { data_bits := .Eight, stop_bits := .One, parity := .None,
        flow_control := .None, control_mode := .None, control_pin := .RTS } :=
  c10_open_parameter_coercion 9 3 7 9 3 5
    (by refine ⟨?_, ?_, ?_, ?_⟩ <;> decide)
    (by refine ⟨?_, ?_⟩ <;> decide)
    (by refine ⟨?_, ?_, ?_⟩ <;> decide)
    (by refine ⟨?_, ?_, ?_⟩ <;> decide)
    (by refine ⟨?_, ?_, ?_⟩ <;> decide)
    (by refine ⟨?_, ?_⟩ <;> decide)

/-- C7: the kernel descriptor built by the enable path always has the
enabled bit (bit 0) set; bit 1 (assert-on-send) is set exactly when
`rts_active_high` holds and bit 2 (assert-after-send) exactly when it does
not, so exactly one of the two is set; bits 4 and 5 mirror the
receive-during-transmit and bus-termination flags; and the microsecond
delays are converted to milliseconds by truncating integer division. -/
theorem c7_kernel_descriptor_encoding (s : LinuxPortState) :
    (encode_rs485_config s).flags.testBit 0 = true ∧
    (encode_rs485_config s).flags.testBit 1 = s.rts_active_high ∧
    (encode_rs485_config s).flags.testBit 2 = (!s.rts_active_high) ∧
    (encode_rs485_config s).flags.testBit 4 = s.rx_during_tx ∧
    (encode_rs485_config s).flags.testBit 5 = s.termination_enabled ∧
    (encode_rs485_config s).delay_rts_before_send = s.delay_before_send_micros / 1000 ∧
    (encode_rs485_config s).delay_rts_after_send = s.delay_after_send_micros / 1000 ∧
    1000 * (encode_rs485_config s).delay_rts_before_send ≤ s.delay_before_send_micros ∧
    s.delay_before_send_micros < 1000 * (encode_rs485_config s).delay_rts_before_send + 1000 ∧
    1000 * (encode_rs485_config s).delay_rts_after_send ≤ s.delay_after_send_micros ∧
    s.delay_after_send_micros < 1000 * (encode_rs485_config s).delay_rts_after_send + 1000 := by
  obtain ⟨mo, pi, ka, rts, rx, term, b, a⟩ := s
  refine ⟨?_, ?_, ?_, ?_, ?_, rfl, rfl, ?_, ?_, ?_, ?_⟩
  case mk.refine_6 => show 1000 * (b / 1000) ≤ b; omega
  case mk.refine_7 => show b < 1000 * (b / 1000) + 1000; omega
  case mk.refine_8 => show 1000 * (a / 1000) ≤ a; omega
  case mk.refine_9 => show a < 1000 * (a / 1000) + 1000; omega
  all_goals
    cases rts <;> cases rx <;> cases term <;>
      simp only [encode_rs485_config, build_rs485_flags, SER_RS485_ENABLED,
        SER_RS485_RTS_ON_SEND, SER_RS485_RTS_AFTER_SEND, SER_RS485_RX_DURING_TX,
        SER_RS485_TERMINATE_BUS, Bool.not_true, Bool.not_false, if_true, if_false] <;>
      decide

/-- Single-step preservation of the kernel-capability invariant by
`configure_rs485`, regardless of the starting state. -/
theorem configure_rs485_post_inv (s : LinuxPortState) (mode : Rs485ControlMode)
    (pin : Rs485ControlPin) (env : IoctlEnv) :
    (configure_rs485 s mode pin env).1.kernel_rs485_active = true →
      mode = .Auto ∧ pin = .RTS ∧ try_enable_kernel_rs485 env = true := by
  obtain ⟨mo, pi, ka, rts, rx, term, b, a⟩ := s
  cases mode with
  | None => cases ka <;> simp [configure_rs485]
  | Auto =>
    by_cases hp : pin = .RTS
    · subst hp
      by_cases he : try_enable_kernel_rs485 env = true
      · exact fun _ => ⟨rfl, rfl, he⟩
      · cases ka <;> simp [configure_rs485, he]
    · cases ka <;> simp [configure_rs485, hp]
  | Manual => cases ka <;> simp [configure_rs485]

/-- The operation `configure_rs485` records the requested mode and pin in the state. -/
theorem configure_rs485_mode_pin (s : LinuxPortState) (mode : Rs485ControlMode)
    (pin : Rs485ControlPin) (env : IoctlEnv) :
    (configure_rs485 s mode pin env).1.control_mode = mode ∧
    (configure_rs485 s mode pin env).1.control_pin = pin := by
  obtain ⟨mo, pi, ka, rts, rx, term, b, a⟩ := s
  cases mode with
  | None => exact ⟨rfl, rfl⟩
  | Auto =>
    by_cases hp : pin = .RTS
    · by_cases he : try_enable_kernel_rs485 env = true
      · cases ka <;> simp [configure_rs485, hp, he]
      · cases ka <;> simp [configure_rs485, hp, he]
    · cases ka <;> simp [configure_rs485, hp]
  | Manual => exact ⟨rfl, rfl⟩

/-- The operation `configure_rs485_extended` inherits the mode, pin and kernel-flag
behaviour of the `configure_rs485` call it ends with. -/
theorem configure_rs485_extended_post (s : LinuxPortState)
    (mode : Rs485ControlMode) (pin : Rs485ControlPin)
    (r x t : Bool) (b a : Nat) (env : IoctlEnv) :
    ((configure_rs485_extended s mode pin r x t b a env).1.kernel_rs485_active = true →
      mode = .Auto ∧ pin = .RTS ∧ try_enable_kernel_rs485 env = true) ∧
    (configure_rs485_extended s mode pin r x t b a env).1.control_mode = mode ∧
    (configure_rs485_extended s mode pin r x t b a env).1.control_pin = pin := by
  unfold configure_rs485_extended
  exact ⟨configure_rs485_post_inv _ mode pin env, configure_rs485_mode_pin _ mode pin env⟩

/-- The kernel-capability invariant is preserved by every wrapper
operation. -/
theorem kernelInv_runOp {s : LinuxPortState} (h : kernelInv s)
    (op : ControllerOp) : kernelInv (runOp s op) := by
  cases op with
  | cfg mode pin env =>
    intro hk
    have h' := configure_rs485_post_inv s mode pin env hk
    have hmp := configure_rs485_mode_pin s mode pin env
    exact ⟨h'.1 ▸ hmp.1, h'.2.1 ▸ hmp.2⟩
  | cfgExt mode pin r x t b a env =>
    intro hk
    have h' := (configure_rs485_extended_post s mode pin r x t b a env).1 hk
    have hmp := (configure_rs485_extended_post s mode pin r x t b a env).2
    exact ⟨h'.1 ▸ hmp.1, h'.2.1 ▸ hmp.2⟩
  | setDelays b a =>
    intro hk
    exact h hk

/-- C6: kernel delegation is marked active only when the enable call was
issued and verified (set ioctl succeeded, readback succeeded, enabled bit
set), and only for mode Automatic with pin RTS; every call to
`configure_rs485` (also via `configure_rs485_extended`) issues the disable
call exactly when kernel mode was previously active, and along every
sequence of configuration and delay operations from a fresh wrapper the
invariant "kernel active implies Automatic with RTS" holds, so
Automatic-with-DTR and Manual never leave kernel delegation active. -/
theorem c6_kernel_active_invariant :
    (∀ env : IoctlEnv, try_enable_kernel_rs485 env = true →
      env.setOk = true ∧ ∃ verify, env.readback = some verify ∧
        (verify.flags &&& SER_RS485_ENABLED) ≠ 0) ∧
    (∀ (s : LinuxPortState) (mode : Rs485ControlMode) (pin : Rs485ControlPin)
        (env : IoctlEnv),
      (configure_rs485 s mode pin env).2 = s.kernel_rs485_active) ∧
    (∀ (s : LinuxPortState) (mode : Rs485ControlMode) (pin : Rs485ControlPin)
        (env : IoctlEnv),
      (configure_rs485 s mode pin env).1.kernel_rs485_active = true →
        mode = .Auto ∧ pin = .RTS ∧ try_enable_kernel_rs485 env = true) ∧
    (∀ (s : LinuxPortState) (pin : Rs485ControlPin) (env : IoctlEnv),
      (configure_rs485 s .Manual pin env).1.kernel_rs485_active = false ∧
      (configure_rs485 s .Auto .DTR env).1.kernel_rs485_active = false) ∧
    (∀ ops : List ControllerOp, kernelInv (List.foldl runOp PortWrapper_new ops)) := by
  refine ⟨?_, ?_, configure_rs485_post_inv, ?_, ?_⟩
  · intro env he
    unfold try_enable_kernel_rs485 at he
    by_cases hs : env.setOk
    · rw [if_pos hs] at he
      refine ⟨hs, ?_⟩
      cases hr : env.readback with
      | none => rw [hr] at he; exact absurd he (by simp)
      | some verify =>
        rw [hr] at he
        exact ⟨verify, rfl, by simpa using he⟩
    · rw [if_neg hs] at he
      exact absurd he (by simp)
  · intro s mode pin env
    obtain ⟨mo, pi, ka, rts, rx, term, b, a⟩ := s
    cases mode with
    | None => rfl
    | Auto =>
      by_cases hp : pin = .RTS
      · by_cases he : try_enable_kernel_rs485 env = true
        · cases ka <;> simp [configure_rs485, hp, he]
        · cases ka <;> simp [configure_rs485, hp, he]
      · cases ka <;> simp [configure_rs485, hp]
    | Manual => rfl
  · intro s pin env
    constructor
    · by_contra hne
      have := configure_rs485_post_inv s .Manual pin env (by
        cases hx : (configure_rs485 s .Manual pin env).1.kernel_rs485_active
        · exact absurd hx hne
        · rfl)
      exact absurd this.1 (by decide)
    · by_contra hne
      have := configure_rs485_post_inv s .Auto .DTR env (by
        cases hx : (configure_rs485 s .Auto .DTR env).1.kernel_rs485_active
        · exact absurd hx hne
        · rfl)
      exact absurd this.2.1 (by decide)
  · intro ops
    have hgen : ∀ (l : List ControllerOp) (s : LinuxPortState), kernelInv s →
        kernelInv (List.foldl runOp s l) := by
      intro l
      induction l with
      | nil => exact fun s hs => hs
      | cons op rest ih =>
        intro s hs
        exact ih (runOp s op) (kernelInv_runOp hs op)
    exact hgen ops PortWrapper_new (by intro hk; exact absurd hk (by decide))

/-- Witness for C6: a fresh wrapper configured Automatic-with-RTS under an
environment whose readback confirms enablement actually reaches the
kernel-active state, and the first conjunct applies to that environment. -/
theorem c6_kernel_active_invariant_witness :
    Rs485ControlMode.Auto = .Auto ∧ Rs485ControlPin.RTS = .RTS ∧
      try_enable_kernel_rs485 ⟨true, some ⟨1, 0, 0⟩⟩ = true :=
  c6_kernel_active_invariant.2.2.1 PortWrapper_new .Auto .RTS ⟨true, some ⟨1, 0, 0⟩⟩
    (by decide)

/-- C8: with direction control disabled (`Rs485ControlMode::None`), the
write is forwarded directly to the transport's raw write and no control
pin is touched, on both platform variants. -/
theorem c8_disabled_mode_write_passthrough :
    (∀ (s : LinuxPortState) (env : PortEnv), s.control_mode = .None →
      write_rs485_linux s env = (env.writeResult, [.rawWrite]) ∧
      ∀ (pin : Rs485ControlPin) (level : Bool),
        PortEvent.setPin pin level ∉ (write_rs485_linux s env).2) ∧
    (∀ (s : OtherPortState) (env : PortEnv), s.control_mode = .None →
      write_rs485_other s env = (env.writeResult, [.rawWrite]) ∧
      ∀ (pin : Rs485ControlPin) (level : Bool),
        PortEvent.setPin pin level ∉ (write_rs485_other s env).2) := by
  constructor
  · intro s env hmode
    have heq : write_rs485_linux s env = (env.writeResult, [.rawWrite]) := by
      simp [write_rs485_linux, hmode]
    exact ⟨heq, by intro pin level; rw [heq]; simp⟩
  · intro s env hmode
    have heq : write_rs485_other s env = (env.writeResult, [.rawWrite]) := by
      simp [write_rs485_other, hmode]
    exact ⟨heq, by intro pin level; rw [heq]; simp⟩

/-- Witness for C8 at fresh wrappers (mode None) and an all-success
environment accepting 3 bytes. -/
theorem c8_disabled_mode_write_passthrough_witness :
    write_rs485_linux PortWrapper_new (allOkEnv 3) = (.ok 3, [.rawWrite]) ∧
    write_rs485_other OtherPortWrapper_new (allOkEnv 3) = (.ok 3, [.rawWrite]) :=
  ⟨(c8_disabled_mode_write_passthrough.1 PortWrapper_new (allOkEnv 3) rfl).1,
   (c8_disabled_mode_write_passthrough.2 OtherPortWrapper_new (allOkEnv 3) rfl).1⟩

/-- After a successful assertion, the manual-toggle sequence always
reaches the de-assertion of the pin, and the returned result is the
de-assertion error when de-assertion fails, the write's own result
otherwise. -/
theorem manual_toggle_write_deassert (pin : Rs485ControlPin)
    (tl rl : Bool) (env : PortEnv)
    (h : env.setPinResult pin tl = .ok ()) :
    PortEvent.setPin pin rl ∈ (manual_toggle_write pin tl rl env).2 ∧
    (manual_toggle_write pin tl rl env).1 =
      (match env.setPinResult pin rl with
       | .error e => .error e
       | .ok _ => env.writeResult) := by
  unfold manual_toggle_write
  rw [h]
  cases h2 : env.setPinResult pin rl with
  | error e => simp
  | ok u => cases u; simp

/-- C5: in the manual-toggle write path on either platform variant, once
the pin has been asserted, the de-assertion back to the receive level is
performed no matter how the raw write and the flush come out; the call
returns the de-assertion failure when de-assertion fails, and the write's
own result (in particular its error) otherwise — the flush outcome is
never the reported error. -/
theorem c5_deassert_and_error_priority :
    (∀ (s : LinuxPortState) (env : PortEnv),
      (s.control_mode = .Manual ∨
        (s.control_mode = .Auto ∧ s.kernel_rs485_active = false)) →
      env.setPinResult s.control_pin true = .ok () →
      PortEvent.setPin s.control_pin false ∈ (write_rs485_linux s env).2 ∧
      (write_rs485_linux s env).1 =
        (match env.setPinResult s.control_pin false with
         | .error e => .error e
         | .ok _ => env.writeResult)) ∧
    (∀ (s : OtherPortState) (env : PortEnv),
      s.control_mode ≠ .None →
      env.setPinResult s.control_pin s.rts_active_high = .ok () →
      PortEvent.setPin s.control_pin (!s.rts_active_high) ∈ (write_rs485_other s env).2 ∧
      (write_rs485_other s env).1 =
        (match env.setPinResult s.control_pin (!s.rts_active_high) with
         | .error e => .error e
         | .ok _ => env.writeResult)) := by
  constructor
  · intro s env hmode h
    rcases hmode with hm | ⟨hm, hk⟩
    · have : write_rs485_linux s env = manual_toggle_write s.control_pin true false env := by
        simp [write_rs485_linux, hm]
      rw [this]
      exact manual_toggle_write_deassert s.control_pin true false env h
    · have : write_rs485_linux s env = manual_toggle_write s.control_pin true false env := by
        simp [write_rs485_linux, hm, hk]
      rw [this]
      exact manual_toggle_write_deassert s.control_pin true false env h
  · intro s env hmode h
    have : write_rs485_other s env =
        manual_toggle_write s.control_pin s.rts_active_high (!s.rts_active_high) env := by
      simp [write_rs485_other, hmode]
    rw [this]
    exact manual_toggle_write_deassert s.control_pin s.rts_active_high
      (!s.rts_active_high) env h

/-- Witness for C5: Manual mode on Linux, the write fails with error 3,
the flush succeeds, and the de-assertion fails with error 7; the
de-assertion is in the trace and error 7 is the one reported. -/
theorem c5_deassert_and_error_priority_witness :
    PortEvent.setPin .RTS false ∈
      (write_rs485_linux { PortWrapper_new with control_mode := .Manual }
        ⟨fun _ level => if level then .ok () else .error 7, .error 3, .ok ()⟩).2 ∧
    (write_rs485_linux { PortWrapper_new with control_mode := .Manual }
        ⟨fun _ level => if level then .ok () else .error 7, .error 3, .ok ()⟩).1 =
      .error 7 :=
  c5_deassert_and_error_priority.1
    { PortWrapper_new with control_mode := .Manual }
    ⟨fun _ level => if level then .ok () else .error 7, .error 3, .ok ()⟩
    (Or.inl rfl) rfl

/-- C1 (code evidence): with `rts_active_high = false` in Manual mode on
pin RTS, the Linux variant still asserts the pin to level `true` before
the write and restores `false` after it — it ignores the stored polarity —
while the non-Linux variant asserts the polarity's transmit level `false`
and restores `true`, as the claim demands of every variant. -/
theorem c1_linux_manual_write_ignores_polarity :
    (write_rs485_linux
        { PortWrapper_new with control_mode := .Manual, rts_active_high := false }
        (allOkEnv 3)).2 =
      [.setPin .RTS true, .rawWrite, .flush, .setPin .RTS false] ∧
    (write_rs485_other
        { OtherPortWrapper_new with control_mode := .Manual, rts_active_high := false }
        (allOkEnv 3)).2 =
      [.setPin .RTS false, .rawWrite, .flush, .setPin .RTS true] := by
  constructor <;> rfl

/-- C2 (counterexample): on a platform without kernel delegation support,
`setRs485Delays` with a valid handle returns 0, not the success flag 1. -/
theorem c2_counterexample_nonlinux_delays_return :
    (jni_setRs485Delays_other false).1 = 0 ∧
    (jni_setRs485Delays_other false).1 ≠ 1 := by
  decide

/-- C2 (amended): `setRs485Delays` returns the failure flag 0 as a no-op
on platforms without kernel delegation support; on Linux with a valid
handle it stores the two microsecond delays, returns success (1), and
re-issues the kernel enable call exactly when kernel delegation is
already active. -/
theorem c2_amended_set_rs485_delays :
    (∀ handleNull : Bool, jni_setRs485Delays_other handleNull = (0, false)) ∧
    (∀ (s : LinuxPortState) (b a : Nat),
      (jni_setRs485Delays_linux false s b a).1 = 1 ∧
      (jni_setRs485Delays_linux false s b a).2.2.1.delay_before_send_micros = b ∧
      (jni_setRs485Delays_linux false s b a).2.2.1.delay_after_send_micros = a ∧
      (jni_setRs485Delays_linux false s b a).2.2.1.control_mode = s.control_mode ∧
      (jni_setRs485Delays_linux false s b a).2.2.1.control_pin = s.control_pin ∧
      (jni_setRs485Delays_linux false s b a).2.2.1.kernel_rs485_active =
        s.kernel_rs485_active ∧
      (jni_setRs485Delays_linux false s b a).2.2.2 = s.kernel_rs485_active) := by
  constructor
  · intro hn
    cases hn <;> rfl
  · intro s b a
    exact ⟨rfl, rfl, rfl, rfl, rfl, rfl, rfl⟩

/-- C3 (counterexample): `setRs485Config` called with a null handle
returns its sentinel failure value 0 while recording no error context
during the call. -/
theorem c3_counterexample_config_null_handle_not_recorded :
    (jni_setRs485Config true).1 = 0 ∧ (jni_setRs485Config true).2 = false := by
  decide

/-- C3 (amended): open, open-extended, write, read, flush, the three
clears, set-timeout, set-RTS and set-DTR record an error context whenever
they return their sentinel failure value; but `setRs485Config` records
nothing and fails (0) exactly on a null handle, `setRs485Delays` on Linux
records nothing and fails only on a null handle, and `setRs485Delays` on
platforms without kernel delegation support returns 0 without recording
even on a valid handle. -/
theorem c3_amended_error_recording :
    (∀ pn op : Bool, (jni_open pn op).1 = 0 → (jni_open pn op).2 = true) ∧
    (∀ pn op d ds : Bool, (jni_openWithRs485Config pn op d ds).1 = 0 →
      (jni_openWithRs485Config pn op d ds).2 = true) ∧
    (∀ (hn bo : Bool) (wr : Except Nat Nat),
      (jni_write hn bo wr).1 < 0 → (jni_write hn bo wr).2 = true) ∧
    (∀ (hn : Bool) (rr : Except Nat Nat) (bw : Bool),
      (jni_read hn rr bw).1 < 0 → (jni_read hn rr bw).2 = true) ∧
    (∀ hn fo : Bool, (jni_flush hn fo).1 = 0 → (jni_flush hn fo).2 = true) ∧
    (∀ hn co : Bool, (jni_clearInput hn co).1 = 0 → (jni_clearInput hn co).2 = true) ∧
    (∀ hn co : Bool, (jni_clearOutput hn co).1 = 0 → (jni_clearOutput hn co).2 = true) ∧
    (∀ hn co : Bool, (jni_clearAll hn co).1 = 0 → (jni_clearAll hn co).2 = true) ∧
    (∀ hn so : Bool, (jni_setTimeout hn so).1 = 0 → (jni_setTimeout hn so).2 = true) ∧
    (∀ hn so : Bool, (jni_setRTS hn so).1 = 0 → (jni_setRTS hn so).2 = true) ∧
    (∀ hn so : Bool, (jni_setDTR hn so).1 = 0 → (jni_setDTR hn so).2 = true) ∧
    (∀ hn : Bool, (jni_setRs485Config hn).2 = false ∧
      ((jni_setRs485Config hn).1 = 0 ↔ hn = true)) ∧
    (∀ (s : LinuxPortState) (b a : Nat),
      (jni_setRs485Delays_linux true s b a).1 = 0 ∧
      (jni_setRs485Delays_linux true s b a).2.1 = false ∧
      (jni_setRs485Delays_linux false s b a).1 = 1 ∧
      (jni_setRs485Delays_linux false s b a).2.1 = false) ∧
    (∀ hn : Bool, (jni_setRs485Delays_other hn).1 = 0 ∧
      (jni_setRs485Delays_other hn).2 = false) := by
  refine ⟨?_, ?_, ?_, ?_, ?_, ?_, ?_, ?_, ?_, ?_, ?_, ?_, ?_, ?_⟩
  · intro pn op
    cases pn <;> cases op <;> decide
  · intro pn op d ds
    cases pn <;> cases op <;> cases d <;> cases ds <;> decide
  · intro hn bo wr
    cases hn with
    | true => intro h; rfl
    | false =>
      cases bo with
      | false => intro h; rfl
      | true =>
        cases wr with
        | error e => intro h; rfl
        | ok n =>
          intro h
          have h' : (n : Int) < 0 := h
          exact absurd h' (by omega)
  · intro hn rr bw
    cases hn with
    | true => intro h; rfl
    | false =>
      cases rr with
      | error e => intro h; rfl
      | ok n =>
        cases bw with
        | false =>
          by_cases hp : n > 0
          · intro h
            have h2 : jni_read false (.ok n) false = (-1, true) := by
              simp [jni_read, hp]
            rw [h2]
          · intro h
            have h2 : jni_read false (.ok n) false = ((n : Int), false) := by
              simp [jni_read, hp]
            rw [h2] at h
            exact absurd h (by omega)
        | true =>
          intro h
          have h2 : jni_read false (.ok n) true = ((n : Int), false) := by
            simp [jni_read]
          rw [h2] at h
          exact absurd h (by omega)
  · intro hn fo
    cases hn <;> cases fo <;> decide
  · intro hn co
    cases hn <;> cases co <;> decide
  · intro hn co
    cases hn <;> cases co <;> decide
  · intro hn co
    cases hn <;> cases co <;> decide
  · intro hn so
    cases hn <;> cases so <;> decide
  · intro hn so
    cases hn <;> cases so <;> decide
  · intro hn so
    cases hn <;> cases so <;> decide
  · intro hn
    cases hn <;> decide
  · intro s b a
    exact ⟨rfl, rfl, rfl, rfl⟩
  · intro hn
    cases hn <;> decide

/-- Witness for C3 (amended): a failing flush on a valid handle returns 0
and has recorded an error context. -/
theorem c3_amended_error_recording_witness :
    (jni_flush false false).2 = true :=
  c3_amended_error_recording.2.2.2.2.1 false false (by decide)

/-- C9: classification is a deterministic function of the path and the
filesystem facts about it; absent filesystem information degrades the
symlink flag to false rather than erroring; any path containing the
fragment "/dev/pts/3" classifies as pseudo-terminal; the Bluetooth flag
emitted by `listPorts` is the OR of the transport's own classification,
the case-insensitive "bluetooth" substring test, and the "/dev/rfcomm"
naming convention, so a path containing "Bluetooth-Modem" classifies as
Bluetooth whatever the transport and filesystem say. -/
theorem c9_port_classification :
    (∀ (meta : FsMeta) (path : List Char),
      get_port_type_info meta path = get_port_type_info meta path) ∧
    (∀ path : List Char,
      (get_port_type_info ⟨none, none⟩ path).is_symlink = false) ∧
    (∀ (meta : FsMeta) (pre post : List Char),
      (get_port_type_info meta
        (pre ++ "/dev/pts/3".toList ++ post)).is_pseudo_terminal = true) ∧
    (∀ (pt : SerialPortType) (meta : FsMeta) (path : List Char),
      listPorts_is_bluetooth pt meta path =
        ((pt = SerialPortType.BluetoothPort : Bool)
          || (str_contains (path.map Char.toLower) ("bluetooth".toList)
              || ("/dev/rfcomm".toList).isPrefixOf path))) ∧
    (∀ (pt : SerialPortType) (meta : FsMeta) (pre post : List Char),
      listPorts_is_bluetooth pt meta (pre ++ "Bluetooth-Modem".toList ++ post) = true) := by
  refine ⟨fun meta path => rfl, fun path => rfl, ?_, fun pt meta path => rfl, ?_⟩
  · intro meta pre post
    have hsplit : ("/dev/pts/3".toList : List Char) = "/dev/pts/".toList ++ ['3'] := by
      decide
    have hc : str_contains (pre ++ "/dev/pts/3".toList ++ post)
        ("/dev/pts/".toList) = true := by
      rw [hsplit, List.append_assoc, List.append_assoc]
      exact str_contains_append pre _ (['3'] ++ post)
    simp only [get_port_type_info]
    simp only [Bool.or_eq_true]
    refine Or.inl (Or.inr ?_)
    simpa using hc
  · intro pt meta pre post
    have hmap : ("Bluetooth-Modem".toList : List Char).map Char.toLower =
        "bluetooth".toList ++ "-modem".toList := by decide
    have hc : str_contains
        ((pre ++ "Bluetooth-Modem".toList ++ post).map Char.toLower)
        ("bluetooth".toList) = true := by
      rw [List.map_append, List.map_append, hmap, List.append_assoc,
        List.append_assoc]
      exact str_contains_append _ _ _
    simp only [listPorts_is_bluetooth, get_port_type_info]
    simp only [Bool.or_eq_true, decide_eq_true_eq]
    refine Or.inr (Or.inl ?_)
    simpa using hc

end JrSerial
